import Mathlib

/-!
MkvCheckResolution — verification of the metadata pipeline.

Shallow embedding of `src/mkv_resolution.py`: the quality-classification
table (`QUALITY_BY_WIDTH` / `classify`), the ffprobe-output extractor
(`get_video_metadata`) and the per-file row rendering (`_update_list`),
together with theorems settling the specification claims.

Modelling conventions:
* the ffprobe subprocess boundary is a `ProbeResult`: either `failure`
  (tool missing, non-zero exit, or `json.loads` failure — all caught by the
  same `except` clause in the source) or `success` with the parsed list of
  stream objects;
* a JSON stream object is a `Stream` record of the fields the command
  requests; absent JSON keys are `none` (Python `dict.get` returning `None`);
* Python exceptions that the source does not catch are an `Except` error;
  the only uncaught exception reachable in the extractor is
  `ZeroDivisionError` from `num/den` with `den = 0`;
* `f"{num/den:.3f}"` is modelled at exact rational precision with
  round-half-to-even (Python formats the IEEE double nearest to `num/den`;
  for the denominators ffprobe emits the two agree, and no claim depends on
  the residual float error). The sign of a negative zero is dropped;
* Python `int(s)` is modelled on the optional-sign-plus-digits forms
  (underscores and surrounding whitespace, which ffprobe never emits, are
  not accepted by the model).
-/

namespace MkvRes

/-- One ffprobe stream object, with the fields requested by the command
`stream=index,codec_type,codec_name,width,height,avg_frame_rate,tags`.
`none` models an absent key; `tags` models the tags object as an
association list (an absent tags object is `[]`, as `stream.get("tags", {})`). -/
structure Stream where
  codec_type : Option String
  codec_name : Option String
  width : Option Int
  height : Option Int
  avg_frame_rate : Option String
  tags : List (String × String)
deriving DecidableEq, Repr

/-- Outcome of the probe invocation: `failure` covers
`subprocess.SubprocessError`, `json.JSONDecodeError` and
`FileNotFoundError` (one `except` clause); `success` carries
`data.get("streams", [])`. -/
inductive ProbeResult where
  | failure
  | success (streams : List Stream)
deriving DecidableEq, Repr

/-- The dictionary built by `get_video_metadata`. -/
structure Metadata where
  width : Option Int
  height : Option Int
  codec : Option String
  fps : Option String
  audio : List String
  subtitles : List String
deriving DecidableEq, Repr

/-- A Python exception escaping the extractor. -/
inductive PyError where
  | zeroDivisionError
deriving DecidableEq, Repr

deriving instance DecidableEq for Except

/-- The table `QUALITY_BY_WIDTH` from the source, in its textual order. -/
def QUALITY_BY_WIDTH : List (Int × String) :=
  [(3840, "4K"), (2560, "2K"), (1920, "FHD"), (1280, "HD"), (0, "SD")]

/-- The `for threshold, label in ...: if width >= threshold: return label`
loop of `classify`, over an arbitrary table. -/
def classifyAux (width : Int) : List (Int × String) → String
  | [] => "Unknown"
  | (threshold, label) :: rest =>
    if width ≥ threshold then label else classifyAux width rest

/-- The function `classify(width)` from the source. -/
def classify (width : Int) : String :=
  classifyAux width QUALITY_BY_WIDTH

/-- Spec §4.2/§8 reading, written from the spec words: the label of the
first table row, in the fixed order 3840, 2560, 1920, 1280, 0, whose
threshold is ≤ `w` (no row matching ⇒ `none`). -/
def specFirstRowLabel (w : Int) : Option String :=
  (QUALITY_BY_WIDTH.find? (fun r => r.1 ≤ w)).map Prod.snd

/-- Python `dict.get(k)` on a tags object. -/
def dictGet (k : String) : List (String × String) → Option String
  | [] => none
  | (k', v) :: rest => if k' = k then some v else dictGet k rest

/-- Python `s.split("/")`: split on every slash, keeping empty pieces. -/
def splitSlashList : List Char → List String
  | [] => [""]
  | c :: cs =>
    if c = '/' then "" :: splitSlashList cs
    else
      match splitSlashList cs with
      | [] => [String.mk [c]]
      | t :: ts => String.mk (c :: t.data) :: ts

/-- The call `rate.split("/")` from the source. -/
def splitSlash (s : String) : List String :=
  splitSlashList s.data

/-- Value of a digit string (callers check the digits first). -/
def digitsVal (cs : List Char) : Nat :=
  cs.foldl (fun a c => 10 * a + (c.toNat - 48)) 0

/-- A non-empty all-digit string, or `none` (Python `int` raising
`ValueError`). -/
def natDigits? (cs : List Char) : Option Nat :=
  if cs = [] then none
  else if cs.all Char.isDigit then some (digitsVal cs) else none

/-- Python `int(s)` on the optional-sign-plus-digits forms. -/
def pyInt? (s : String) : Option Int :=
  match s.data with
  | '-' :: cs => (natDigits? cs).map (fun n => -(n : Int))
  | '+' :: cs => (natDigits? cs).map (fun n => (n : Int))
  | cs => (natDigits? cs).map (fun n => (n : Int))

/-- The unpacking `num, den = map(int, rate.split("/"))`: `none` is the `ValueError`
(wrong number of parts, or a part `int` rejects), which the source catches. -/
def parseRate (rate : String) : Option (Int × Int) :=
  match (splitSlash rate).map pyInt? with
  | [some n, some d] => some (n, d)
  | _ => none

/-- Round `p/q` (with `q > 0`) to the nearest integer, ties to even. -/
def roundHalfEven (p q : Int) : Int :=
  let f := Int.fdiv p q
  let r := p - f * q
  if 2 * r < q then f
  else if q < 2 * r then f + 1
  else if f % 2 = 0 then f else f + 1

/-- Python `s.rstrip(c)` for a single character. -/
def rstrip (s : String) (c : Char) : String :=
  String.mk (s.data.reverse.dropWhile (fun x => x = c)).reverse

/-- Left-pad the decimal digits of `m < 1000` to width 3. -/
def pad3 (m : Nat) : String :=
  if m < 10 then "00" ++ toString m
  else if m < 100 then "0" ++ toString m
  else toString m

/-- The format `f"{n/d:.3f}"` at exact rational precision (`d ≠ 0`). -/
def fixed3 (n d : Int) : String :=
  let p := if d < 0 then -n else n
  let q := if d < 0 then -d else d
  let milli := roundHalfEven (1000 * p) q
  let core := toString (milli.natAbs / 1000) ++ "." ++ pad3 (milli.natAbs % 1000)
  if milli < 0 then "-" ++ core else core

/-- The expression `f"{num/den:.3f}".rstrip("0").rstrip(".")` from the source (`den ≠ 0`). -/
def formatFps (n d : Int) : String :=
  rstrip (rstrip (fixed3 n d) '0') '.'

/-- The frame-rate part of the video branch: given the current
`metadata["fps"]` and `stream.get("avg_frame_rate")`, the new `fps`
value, or the uncaught `ZeroDivisionError`. -/
def rateUpdate (fps0 : Option String) (rate : Option String) :
    Except PyError (Option String) :=
  match rate with
  | none => .ok fps0
  | some r =>
    if r = "" ∨ r = "0/0" then .ok fps0
    else
      match parseRate r with
      | none => .ok fps0
      | some (n, d) =>
        if d = 0 then .error .zeroDivisionError
        else .ok (some (formatFps n d))

/-- The `stype == "video" and metadata["width"] is None` branch of the
stream loop. -/
def procVideo (m : Metadata) (s : Stream) : Except PyError Metadata :=
  match rateUpdate m.fps s.avg_frame_rate with
  | .error e => .error e
  | .ok fps' =>
    .ok { m with
          width := s.width, height := s.height,
          codec := s.codec_name, fps := fps' }

/-- The label `f"{lang} ({codec})" if codec else lang` with
`lang = tags.get("language", "und")`. -/
def trackEntry (s : Stream) : String :=
  let lang := (dictGet "language" s.tags).getD "und"
  match s.codec_name with
  | none => lang
  | some c => if c = "" then lang else lang ++ " (" ++ c ++ ")"

/-- One iteration of the `for stream in data.get("streams", [])` loop. -/
def procStream (m : Metadata) (s : Stream) : Except PyError Metadata :=
  if s.codec_type = some "video" ∧ m.width = none then procVideo m s
  else if s.codec_type = some "audio" then
    .ok { m with audio := m.audio ++ [trackEntry s] }
  else if s.codec_type = some "subtitle" then
    .ok { m with subtitles := m.subtitles ++ [trackEntry s] }
  else .ok m

/-- The whole stream loop (an uncaught exception aborts it). -/
def processStreams (m : Metadata) : List Stream → Except PyError Metadata
  | [] => .ok m
  | s :: rest =>
    match procStream m s with
    | .error e => .error e
    | .ok m' => processStreams m' rest

/-- The initial `metadata` dictionary. -/
def defaultMetadata : Metadata :=
  { width := none, height := none, codec := none, fps := none,
    audio := [], subtitles := [] }

/-- The function `get_video_metadata`, with the probe outcome made explicit: a probe
failure returns the defaults; otherwise the stream loop runs (and an
uncaught exception propagates to the caller). -/
def get_video_metadata : ProbeResult → Except PyError Metadata
  | .failure => .ok defaultMetadata
  | .success streams => processStreams defaultMetadata streams

/-- One row inserted into the tree view, named by the column identifiers
`("file", "resolution", "fps", "video", "audio", "subs", "quality")`. -/
structure Row where
  file : String
  resolution : String
  fps : String
  video : String
  audio : String
  subs : String
  quality : String
deriving DecidableEq, Repr

/-- Python `x or "-"` on an optional string (`None` and `""` are falsy). -/
def orDash : Option String → String
  | none => "-"
  | some s => if s = "" then "-" else s

/-- Python `", ".join(xs) or "-"`. -/
def joinOrDash (xs : List String) : String :=
  let j := String.intercalate ", " xs
  if j = "" then "-" else j

/-- Python `Path(p).name` for POSIX-style paths without a trailing separator. -/
def baseName (p : String) : String :=
  (splitSlashList p.data).getLastD p

/-- The row `_update_list` builds for one file from its metadata
(lines 107–134 of the source): the placeholder row when `width` or
`height` is `None`, the populated row otherwise. -/
def renderRow (name : String) (m : Metadata) : Row :=
  match m.width, m.height with
  | some w, some h =>
    { file := name
      resolution := toString w ++ "x" ++ toString h
      fps := orDash m.fps
      video := orDash m.codec
      audio := joinOrDash m.audio
      subs := joinOrDash m.subtitles
      quality := classify w }
  | _, _ =>
    { file := name, resolution := "Unknown", fps := "-", video := "-",
      audio := "-", subs := "-", quality := "-" }

/-- The loop `_update_list` over the batch, each path paired with its probe
outcome: the rows inserted so far, and the uncaught exception, if any,
that aborted the loop (rows after it are never produced). -/
def updateList : List (String × ProbeResult) → List Row × Option PyError
  | [] => ([], none)
  | (p, pr) :: rest =>
    match get_video_metadata pr with
    | .error e => ([], some e)
    | .ok m =>
      match updateList rest with
      | (rows, err) => (renderRow (baseName p) m :: rows, err)



/-! ## Classification lemmas -/

/-- Closed form of the `classify` loop on the concrete table. -/
theorem classify_eq (w : Int) :
    classify w =
      if w ≥ 3840 then "4K"
      else if w ≥ 2560 then "2K"
      else if w ≥ 1920 then "FHD"
      else if w ≥ 1280 then "HD"
      else if w ≥ 0 then "SD"
      else "Unknown" := rfl

/-- Closed form of the spec-side first-matching-row lookup. -/
theorem specFirstRowLabel_eq (w : Int) :
    specFirstRowLabel w =
      if 3840 ≤ w then some "4K"
      else if 2560 ≤ w then some "2K"
      else if 1920 ≤ w then some "FHD"
      else if 1280 ≤ w then some "HD"
      else if 0 ≤ w then some "SD"
      else none := by
  simp only [specFirstRowLabel, QUALITY_BY_WIDTH, List.find?]
  repeat' split
  all_goals simp_all

/-- The function `classify` never returns the placeholder `"-"`. -/
theorem classify_ne_dash (w : Int) : classify w ≠ "-" := by
  rw [classify_eq]
  split_ifs <;> decide

/-- Claim C1: for every non-negative width `w`, `classify(w)` is the label of the
first row of `QUALITY_BY_WIDTH`, in its fixed order, whose threshold is
≤ `w`; and `classify` maps 3840 to `"4K"`, 3839 to `"2K"`, 1920 to `"FHD"`
and 0 to `"SD"`. -/
theorem claim_C1 (w : Int) (hw : 0 ≤ w) :
    specFirstRowLabel w = some (classify w) ∧
    classify 3840 = "4K" ∧ classify 3839 = "2K" ∧
    classify 1920 = "FHD" ∧ classify 0 = "SD" := by
  refine ⟨?_, by decide, by decide, by decide, by decide⟩
  rw [specFirstRowLabel_eq, classify_eq]
  simp only [ge_iff_le]
  split_ifs <;> first | rfl | omega

/-- Claim C1 witness at `w = 1920`. -/
theorem claim_C1_witness :
    specFirstRowLabel 1920 = some (classify 1920) ∧
    classify 3840 = "4K" ∧ classify 3839 = "2K" ∧
    classify 1920 = "FHD" ∧ classify 0 = "SD" :=
  claim_C1 1920 (by decide)

/-- Claim C9: for every non-negative width, `classify` never returns
`"Unknown"` — the threshold-0 row `"SD"` catches everything, so the
fall-through branch is unreachable. -/
theorem claim_C9 (w : Int) (hw : 0 ≤ w) : classify w ≠ "Unknown" := by
  rw [classify_eq]
  split_ifs <;> first | decide | omega

/-- Claim C9 witness at `w = 1280`. -/
theorem claim_C9_witness : classify 1280 ≠ "Unknown" :=
  claim_C9 1280 (by decide)

/-- Claim C10: for every negative width, no row of the table matches, and
`classify` falls through to `"Unknown"`. -/
theorem claim_C10 (w : Int) (hw : w < 0) : classify w = "Unknown" := by
  rw [classify_eq]
  split_ifs <;> first | rfl | omega

/-- Claim C10 witness at `w = -1`. -/
theorem claim_C10_witness : classify (-1) = "Unknown" :=
  claim_C10 (-1) (by decide)


/-! ## Rendering claims -/

/-- Claim C2 counterexample: after a probe failure the width is absent, yet the
rendered quality cell is `"-"`, not `"Unknown"` (the literal `"Unknown"`
goes to the resolution column). -/
theorem claim_C2_cex :
    get_video_metadata ProbeResult.failure = .ok defaultMetadata ∧
    defaultMetadata.width = none ∧
    (renderRow "b.mkv" defaultMetadata).quality ≠ "Unknown" := by decide

/-- Claim C2 (amended): the rendered quality cell is the placeholder `"-"` iff
`width` or `height` is absent; whenever both are present it equals
`classify width`, a pure function of the width alone. -/
theorem claim_C2 (name : String) (m : Metadata) :
    ((renderRow name m).quality = "-" ↔ m.width = none ∨ m.height = none) ∧
    (∀ w h, m.width = some w → m.height = some h →
      (renderRow name m).quality = classify w) := by
  obtain ⟨w?, h?, c?, f?, au, su⟩ := m
  refine ⟨?_, ?_⟩
  · cases w? <;> cases h? <;> simp [renderRow, classify_ne_dash]
  · intro w h hw hh
    cases w? <;> cases h? <;> simp_all [renderRow]

/-- Claim C2 witness: a 1920×1080 record renders quality `classify 1920`. -/
theorem claim_C2_witness :
    (renderRow "a.mkv" ⟨some 1920, some 1080, none, none, [], []⟩).quality =
      classify 1920 :=
  (claim_C2 "a.mkv" ⟨some 1920, some 1080, none, none, [], []⟩).2 1920 1080 rfl rfl

/-- Claim C4 counterexample: for a failed probe the quality cell of the produced
row is `"-"`, not `"Unknown"` as the claim states. -/
theorem claim_C4_cex :
    (updateList [("clip.mkv", ProbeResult.failure)]).1.map Row.quality = ["-"] ∧
    ("-" : String) ≠ "Unknown" := by decide

/-- Claim C4 (amended): a probe failure yields the default metadata regardless of
the path, and the rendered row carries `"Unknown"` in the resolution cell
and the placeholder `"-"` in every other cell — fps, codec, audio,
subtitles and quality. -/
theorem claim_C4 (name : String) :
    get_video_metadata ProbeResult.failure = .ok defaultMetadata ∧
    renderRow name defaultMetadata =
      { file := name, resolution := "Unknown", fps := "-", video := "-",
        audio := "-", subs := "-", quality := "-" } :=
  ⟨rfl, rfl⟩

/-! ## Frame-rate and exception claims -/

/-- Claim C3: the documented examples hold (`24000/1001 ↦ "23.976"`,
`30/1 ↦ "30"`, `"0/0" ↦ absent`), but a zero denominator other than the
literal `"0/0"` raises an uncaught `ZeroDivisionError` instead of leaving
the frame rate absent. -/
theorem claim_C3 :
    formatFps 24000 1001 = "23.976" ∧
    formatFps 30 1 = "30" ∧
    rateUpdate none (some "0/0") = .ok none ∧
    get_video_metadata (.success
      [⟨some "video", some "h264", some 1920, some 1080, some "30/0", []⟩]) =
      .error PyError.zeroDivisionError := by decide

/-- Claim C5: a malformed frame-rate string only degrades the fps field
(`ValueError` is caught), but the zero-denominator anomaly `"24/0"`
escapes the extractor as a `ZeroDivisionError`. -/
theorem claim_C5 :
    get_video_metadata (.success
      [⟨some "video", some "h264", some 1280, some 720, some "abc/1", []⟩]) =
      .ok ⟨some 1280, some 720, some "h264", none, [], []⟩ ∧
    get_video_metadata (.success
      [⟨some "video", some "hevc", some 640, some 480, some "24/0", []⟩]) =
      .error PyError.zeroDivisionError := by decide


/-! ## Stream-loop lemmas -/

/-- Labels contributed by the audio streams of a list, in report order. -/
def audioEntries (streams : List Stream) : List String :=
  (streams.filter (fun s => decide (s.codec_type = some "audio"))).map trackEntry

/-- Labels contributed by the subtitle streams of a list, in report order. -/
def subtitleEntries (streams : List Stream) : List String :=
  (streams.filter (fun s => decide (s.codec_type = some "subtitle"))).map trackEntry

theorem audioEntries_cons (s : Stream) (rest : List Stream) :
    audioEntries (s :: rest) =
      if s.codec_type = some "audio" then trackEntry s :: audioEntries rest
      else audioEntries rest := by
  by_cases h : s.codec_type = some "audio" <;>
    simp [audioEntries, List.filter_cons, h]

theorem subtitleEntries_cons (s : Stream) (rest : List Stream) :
    subtitleEntries (s :: rest) =
      if s.codec_type = some "subtitle" then trackEntry s :: subtitleEntries rest
      else subtitleEntries rest := by
  by_cases h : s.codec_type = some "subtitle" <;>
    simp [subtitleEntries, List.filter_cons, h]

/-- The video branch never touches the track lists. -/
theorem procVideo_tracks (m : Metadata) (s : Stream) (m' : Metadata)
    (h : procVideo m s = .ok m') :
    m'.audio = m.audio ∧ m'.subtitles = m.subtitles := by
  unfold procVideo at h
  cases hr : rateUpdate m.fps s.avg_frame_rate with
  | error e => rw [hr] at h; simp at h
  | ok fps' =>
    rw [hr] at h
    simp only [Except.ok.injEq] at h
    subst h
    exact ⟨rfl, rfl⟩

/-- A stream that does not enter the video branch appends at most one
track label and changes nothing else. -/
theorem procStream_nonvideo (m : Metadata) (s : Stream)
    (h : ¬(s.codec_type = some "video" ∧ m.width = none)) :
    procStream m s =
      .ok { m with
            audio :=
              if s.codec_type = some "audio" then m.audio ++ [trackEntry s]
              else m.audio,
            subtitles :=
              if s.codec_type = some "subtitle" then m.subtitles ++ [trackEntry s]
              else m.subtitles } := by
  unfold procStream
  rw [if_neg h]
  by_cases ha : s.codec_type = some "audio"
  · simp [ha]
  · by_cases hs : s.codec_type = some "subtitle" <;> simp [ha, hs]

/-- Whatever the loop does, the track lists collect exactly the audio and
subtitle entries of the consumed streams, in order. -/
theorem processStreams_tracks (streams : List Stream) (m m' : Metadata)
    (h : processStreams m streams = .ok m') :
    m'.audio = m.audio ++ audioEntries streams ∧
    m'.subtitles = m.subtitles ++ subtitleEntries streams := by
  induction streams generalizing m with
  | nil =>
    simp only [processStreams, Except.ok.injEq] at h
    subst h
    simp [audioEntries, subtitleEntries]
  | cons s rest ih =>
    simp only [processStreams] at h
    cases hp : procStream m s with
    | error e => rw [hp] at h; simp at h
    | ok m1 =>
      rw [hp] at h
      obtain ⟨ha, hs⟩ := ih m1 h
      by_cases hv : s.codec_type = some "video" ∧ m.width = none
      · rw [procStream, if_pos hv] at hp
        obtain ⟨ha1, hs1⟩ := procVideo_tracks m s m1 hp
        rw [audioEntries_cons, subtitleEntries_cons]
        rw [if_neg (by simp [hv.1]), if_neg (by simp [hv.1])]
        exact ⟨by rw [ha, ha1], by rw [hs, hs1]⟩
      · rw [procStream_nonvideo m s hv] at hp
        simp only [Except.ok.injEq] at hp
        subst hp
        rw [audioEntries_cons, subtitleEntries_cons] at *
        constructor
        · rw [ha]
          by_cases h2 : s.codec_type = some "audio" <;> simp [h2]
        · rw [hs]
          by_cases h2 : s.codec_type = some "subtitle" <;> simp [h2]

/-- One successful loop iteration, unfolded. -/
theorem processStreams_cons (m : Metadata) (s : Stream) (rest : List Stream)
    (m1 : Metadata) (hp : procStream m s = .ok m1) :
    processStreams m (s :: rest) = processStreams m1 rest := by
  simp only [processStreams, hp]

/-- Once a width is recorded, the rest of the loop only appends track
labels: the video branch is never entered again. -/
theorem processStreams_width_set (streams : List Stream) (m : Metadata)
    (hm : m.width ≠ none) :
    processStreams m streams =
      .ok ⟨m.width, m.height, m.codec, m.fps,
           m.audio ++ audioEntries streams,
           m.subtitles ++ subtitleEntries streams⟩ := by
  induction streams generalizing m with
  | nil => simp [processStreams, audioEntries, subtitleEntries]
  | cons s rest ih =>
    have hv : ¬(s.codec_type = some "video" ∧ m.width = none) :=
      fun h2 => hm h2.2
    rw [processStreams_cons m s rest _ (procStream_nonvideo m s hv)]
    refine (ih _ ?_).trans ?_
    · simpa using hm
    · rw [audioEntries_cons, subtitleEntries_cons]
      by_cases ha : s.codec_type = some "audio" <;>
        by_cases hs : s.codec_type = some "subtitle" <;>
        simp_all

/-- A run of non-video streams only appends track labels. -/
theorem processStreams_nonvideo (pre : List Stream) (m : Metadata)
    (hpre : ∀ t ∈ pre, t.codec_type ≠ some "video") :
    processStreams m pre =
      .ok ⟨m.width, m.height, m.codec, m.fps,
           m.audio ++ audioEntries pre,
           m.subtitles ++ subtitleEntries pre⟩ := by
  induction pre generalizing m with
  | nil => simp [processStreams, audioEntries, subtitleEntries]
  | cons s rest ih =>
    have hsv : s.codec_type ≠ some "video" := hpre s (by simp)
    have hv : ¬(s.codec_type = some "video" ∧ m.width = none) :=
      fun h2 => hsv h2.1
    rw [processStreams_cons m s rest _ (procStream_nonvideo m s hv)]
    refine (ih _ ?_).trans ?_
    · exact fun t ht => hpre t (by simp [ht])
    · rw [audioEntries_cons, subtitleEntries_cons]
      by_cases ha : s.codec_type = some "audio" <;>
        by_cases hs : s.codec_type = some "subtitle" <;>
        simp_all

/-- Splitting the loop at a list concatenation. -/
theorem processStreams_append (l1 l2 : List Stream) (m : Metadata) :
    processStreams m (l1 ++ l2) =
      match processStreams m l1 with
      | .error e => .error e
      | .ok m1 => processStreams m1 l2 := by
  induction l1 generalizing m with
  | nil => simp [processStreams]
  | cons s rest ih =>
    simp only [List.cons_append, processStreams]
    cases hp : procStream m s with
    | error e => rfl
    | ok m1 => exact ih m1


/-! ## Stream-selection, track and batch claims -/

/-- Claim C6 counterexample: when the first video stream lacks a `width` field,
a second video stream is consulted as well — the final codec, width and
height come from it while the frame rate stays from the first. -/
theorem claim_C6_cex :
    (⟨some "video", some "h264", none, some 1080, some "30/1", []⟩
      : Stream).codec_name = some "h264" ∧
    get_video_metadata (.success
      [⟨some "video", some "h264", none, some 1080, some "30/1", []⟩,
       ⟨some "video", some "hevc", some 1920, some 800, none, []⟩]) =
      .ok ⟨some 1920, some 800, some "hevc", some "30", [], []⟩ ∧
    (some "hevc" : Option String) ≠ some "h264" := by decide

/-- Claim C6 (amended): video streams are consulted only while the recorded
width is still absent; in particular, when the first video stream of the
list has a `width` field present, exactly that stream is consulted and
width, height, codec and frame rate are all taken from it. -/
theorem claim_C6 (pre : List Stream) (s : Stream) (rest : List Stream)
    (w : Int) (m : Metadata)
    (hpre : ∀ t ∈ pre, t.codec_type ≠ some "video")
    (hty : s.codec_type = some "video") (hw : s.width = some w)
    (hm : get_video_metadata (.success (pre ++ s :: rest)) = .ok m) :
    m.width = some w ∧ m.height = s.height ∧ m.codec = s.codec_name ∧
    rateUpdate none s.avg_frame_rate = .ok m.fps := by
  simp only [get_video_metadata] at hm
  rw [processStreams_append, processStreams_nonvideo pre defaultMetadata hpre] at hm
  simp only [defaultMetadata, List.nil_append] at hm
  rw [processStreams] at hm
  rw [procStream, if_pos ⟨hty, rfl⟩] at hm
  cases hr : rateUpdate (none : Option String) s.avg_frame_rate with
  | error e => rw [procVideo, hr] at hm; simp at hm
  | ok fps' =>
    rw [procVideo, hr] at hm
    simp only at hm
    rw [processStreams_width_set rest _ (by simp [hw])] at hm
    simp only [Except.ok.injEq] at hm
    subst hm
    exact ⟨hw, rfl, rfl, rfl⟩

/-- Claim C6 witness: an audio stream, then a video stream with width 1920, then
a subtitle stream — all four fields come from the video stream. -/
theorem claim_C6_witness :
    (⟨some 1920, some 1080, some "h264", some "23.976",
      ["eng (aac)"], ["und (srt)"]⟩ : Metadata).width = some 1920 ∧
    (⟨some 1920, some 1080, some "h264", some "23.976",
      ["eng (aac)"], ["und (srt)"]⟩ : Metadata).height =
      (⟨some "video", some "h264", some 1920, some 1080,
        some "24000/1001", []⟩ : Stream).height ∧
    (⟨some 1920, some 1080, some "h264", some "23.976",
      ["eng (aac)"], ["und (srt)"]⟩ : Metadata).codec =
      (⟨some "video", some "h264", some 1920, some 1080,
        some "24000/1001", []⟩ : Stream).codec_name ∧
    rateUpdate none
      (⟨some "video", some "h264", some 1920, some 1080,
        some "24000/1001", []⟩ : Stream).avg_frame_rate =
      .ok (⟨some 1920, some 1080, some "h264", some "23.976",
        ["eng (aac)"], ["und (srt)"]⟩ : Metadata).fps :=
  claim_C6
    [⟨some "audio", some "aac", none, none, none, [("language", "eng")]⟩]
    ⟨some "video", some "h264", some 1920, some 1080, some "24000/1001", []⟩
    [⟨some "subtitle", some "srt", none, none, none, []⟩]
    1920 _ (by decide) rfl rfl (by decide)

/-- Claim C7: whenever the extractor returns a record, its audio list holds one
entry per audio stream and its subtitle list one entry per subtitle
stream, in report order; on the documented example the audio labels are
`["eng (aac)", "jpn (flac)"]`, and an untagged stream falls back to
`"und"`. -/
theorem claim_C7 (streams : List Stream) (m : Metadata)
    (h : get_video_metadata (.success streams) = .ok m) :
    m.audio = audioEntries streams ∧
    m.subtitles = subtitleEntries streams ∧
    audioEntries
      [⟨some "audio", some "aac", none, none, none, [("language", "eng")]⟩,
       ⟨some "audio", some "flac", none, none, none, [("language", "jpn")]⟩] =
      ["eng (aac)", "jpn (flac)"] ∧
    trackEntry ⟨some "audio", none, none, none, none, []⟩ = "und" := by
  obtain ⟨ha, hs⟩ := processStreams_tracks streams defaultMetadata m h
  refine ⟨?_, ?_, by decide, by decide⟩
  · simpa [defaultMetadata] using ha
  · simpa [defaultMetadata] using hs

/-- Claim C7 witness on the two-audio-stream example. -/
theorem claim_C7_witness :
    (⟨none, none, none, none, ["eng (aac)", "jpn (flac)"], []⟩
      : Metadata).audio =
      audioEntries
        [⟨some "audio", some "aac", none, none, none, [("language", "eng")]⟩,
         ⟨some "audio", some "flac", none, none, none,
          [("language", "jpn")]⟩] ∧
    (⟨none, none, none, none, ["eng (aac)", "jpn (flac)"], []⟩
      : Metadata).subtitles =
      subtitleEntries
        [⟨some "audio", some "aac", none, none, none, [("language", "eng")]⟩,
         ⟨some "audio", some "flac", none, none, none,
          [("language", "jpn")]⟩] ∧
    audioEntries
      [⟨some "audio", some "aac", none, none, none, [("language", "eng")]⟩,
       ⟨some "audio", some "flac", none, none, none, [("language", "jpn")]⟩] =
      ["eng (aac)", "jpn (flac)"] ∧
    trackEntry ⟨some "audio", none, none, none, none, []⟩ = "und" :=
  claim_C7
    [⟨some "audio", some "aac", none, none, none, [("language", "eng")]⟩,
     ⟨some "audio", some "flac", none, none, none, [("language", "jpn")]⟩]
    ⟨none, none, none, none, ["eng (aac)", "jpn (flac)"], []⟩ (by decide)

/-- Claim C8: on the documented batch the loop yields one row per path in order
and a caught probe failure does not stop it; but a zero-denominator frame
rate in one file raises an uncaught exception that aborts the batch, so
later paths get no row at all. -/
theorem claim_C8 :
    updateList
      [("a.mkv", .success
        [⟨some "video", some "h264", some 1920, some 1080,
          some "24000/1001", []⟩]),
       ("b.mkv", ProbeResult.failure)] =
      ([⟨"a.mkv", "1920x1080", "23.976", "h264", "-", "-", "FHD"⟩,
        ⟨"b.mkv", "Unknown", "-", "-", "-", "-", "-"⟩], none) ∧
    updateList
      [("a.mkv", .success
        [⟨some "video", some "h264", some 1920, some 1080,
          some "24000/1001", []⟩]),
       ("c.mkv", .success
        [⟨some "video", some "hevc", some 1280, some 720, some "25/0", []⟩]),
       ("d.mkv", ProbeResult.failure)] =
      ([⟨"a.mkv", "1920x1080", "23.976", "h264", "-", "-", "FHD"⟩],
       some PyError.zeroDivisionError) := by decide

end MkvRes
